import Mathlib

/-!
Shallow embedding of `chaosplt_auth/rpc.py` (the token issuance and lifecycle
service) together with its external collaborators — the JWT encoding functions
and the TokenStore — which are not part of the repository's sources and are
therefore modelled from the specification.

Conventions of the embedding:
* Python's nondeterministic inputs (current time, the random `jti` drawn for
  each signed token, the store-assigned fresh record id) are explicit
  parameters of the Lean functions.
* A Python token string is modelled by `TokenStr`: either an opaque raw string
  supplied by a caller, or a symbolically signed token whose claim set is kept
  as structured data (a serialized signed JWT is never the empty string).
* Raising an exception is modelled by `Except`; an operation whose embedding
  returns a plain value or `Option` has no failure path in the source.
-/

namespace ChaosAuth

/-- A Python identity value: the service historically accepted either a plain
string or a UUID-like opaque identifier (`Union[UUID, str]` in rpc.py). -/
inductive Ident where
  | str (s : String)
  | uuid (s : String)
deriving DecidableEq, Repr

/-- Python's `str(...)` applied to an identity value: a string renders as
itself, a UUID renders as its canonical string form. -/
def Ident.pyStr : Ident → String
  | .str s => s
  | .uuid s => s

/-- The JWT signing configuration read by `NoAppJWTManager` (rpc.py) — the
recognized options of spec §6.  `user_claims_of` stands for the manager's
`_user_claims_callback` hook producing the caller-supplied custom claims for an
identity.  The expiry options are kept as integers: the source applies
`int(...)` to them before use. -/
structure JWTConfig where
  secret_key : String
  algorithm : String
  access_token_expires : Int
  refresh_token_expires : Int
  identity_claim_key : String
  user_claims_key : String
  user_claims_in_refresh_token : Bool
  user_claims_of : String → List (String × String)

/-- Errors the signing layer can signal: a configuration error (absent or
malformed secret/algorithm, spec §4.1 Failure) or rejection of an empty
identity (spec §4.1: identity is validated for non-emptiness only). -/
inductive SignError where
  | configError
  | emptyIdentity
deriving DecidableEq, Repr

/-- The claim set of a signed token, kept symbolically instead of as a signed
serialized string.  `user_claims = none` means no custom-claims entry is
present in the encoded claim set; `some cs` means `cs` is embedded under
`user_claims_key`. -/
structure SignedToken where
  identity_claim_key : String
  identity : String
  iat : Int
  exp : Int
  jti : String
  token_type : String
  user_claims_key : String
  user_claims : Option (List (String × String))
  secret : String
  algorithm : String
deriving DecidableEq, Repr

/-- Modelled from the spec: `flask_jwt_extended.tokens.encode_access_token`,
an external collaborator whose source is not part of this repository.  Per
spec §4.1 it signs a claim set containing subject, issued-at, expiry
(= now + lifetime), a fresh `jti`, and the custom claims under the configured
key; it fails fatally when the secret or algorithm is absent, and validates
the identity for non-emptiness only. -/
def encode_access_token (identity secret algorithm : String)
    (expires_delta : Int) (user_claims : Option (List (String × String)))
    (identity_claim_key user_claims_key : String)
    (now : Int) (jti : String) : Except SignError SignedToken :=
  if secret = "" ∨ algorithm = "" then .error .configError
  else if identity = "" then .error .emptyIdentity
  else .ok
    { identity_claim_key := identity_claim_key
      identity := identity
      iat := now
      exp := now + expires_delta
      jti := jti
      token_type := "access"
      user_claims_key := user_claims_key
      user_claims := user_claims
      secret := secret
      algorithm := algorithm }

/-- Modelled from the spec: `flask_jwt_extended.tokens.encode_refresh_token`,
an external collaborator whose source is not part of this repository; same
contract as `encode_access_token` but producing a refresh-kind token with the
caller-determined custom claims (which rpc.py withholds unless configured). -/
def encode_refresh_token (identity secret algorithm : String)
    (expires_delta : Int) (user_claims : Option (List (String × String)))
    (identity_claim_key user_claims_key : String)
    (now : Int) (jti : String) : Except SignError SignedToken :=
  if secret = "" ∨ algorithm = "" then .error .configError
  else if identity = "" then .error .emptyIdentity
  else .ok
    { identity_claim_key := identity_claim_key
      identity := identity
      iat := now
      exp := now + expires_delta
      jti := jti
      token_type := "refresh"
      user_claims_key := user_claims_key
      user_claims := user_claims
      secret := secret
      algorithm := algorithm }

/-- The `NoAppJWTManager` of rpc.py: a JWT manager detached from any Flask
app, carrying its configuration directly. -/
structure NoAppJWTManager where
  config : JWTConfig

/-- rpc.py `NoAppJWTManager.encode_key_callback`: the signing key is the
configured secret, regardless of the identity. -/
def NoAppJWTManager.encode_key_callback (m : NoAppJWTManager)
    (_identity : String) : String :=
  m.config.secret_key

/-- rpc.py `NoAppJWTManager._user_identity_callback`: the identity is passed
through unchanged. -/
def NoAppJWTManager.user_identity_callback (_m : NoAppJWTManager)
    (identity : String) : String :=
  identity

/-- rpc.py `NoAppJWTManager._create_refresh_token`: expiry delta from
`int(config["refresh_token_expires"])` seconds; custom claims are the
`_user_claims_callback` result when `user_claims_in_refresh_token` is set and
`None` (omitted) otherwise. -/
def NoAppJWTManager.create_refresh_token (m : NoAppJWTManager)
    (identity : String) (now : Int) (jti : String) :
    Except SignError SignedToken :=
  let expires_delta := m.config.refresh_token_expires
  let user_claims :=
    if m.config.user_claims_in_refresh_token then
      some (m.config.user_claims_of identity)
    else
      none
  encode_refresh_token (m.user_identity_callback identity)
    (m.encode_key_callback identity) m.config.algorithm expires_delta
    user_claims m.config.identity_claim_key m.config.user_claims_key now jti

/-- rpc.py `NoAppJWTManager._create_access_token`: expiry delta from
`int(config["access_token_expires"])` seconds; custom claims are always the
`_user_claims_callback` result. -/
def NoAppJWTManager.create_access_token (m : NoAppJWTManager)
    (identity : String) (now : Int) (jti : String) :
    Except SignError SignedToken :=
  let expires_delta := m.config.access_token_expires
  encode_access_token (m.user_identity_callback identity)
    (m.encode_key_callback identity) m.config.algorithm expires_delta
    (some (m.config.user_claims_of identity)) m.config.identity_claim_key
    m.config.user_claims_key now jti

/-- A Python token-string value: either an opaque string as supplied by a
caller, or the serialized form of a symbolically signed token (never the empty
string). -/
inductive TokenStr where
  | raw (s : String)
  | signed (t : SignedToken)
deriving DecidableEq, Repr

/-- Python truthiness test `not access_token` on an optional token-string
argument: `None` and the empty string are falsy; a serialized signed token is
a non-empty string, hence truthy. -/
def tokenFalsy : Option TokenStr → Bool
  | none => true
  | some (.raw s) => s == ""
  | some (.signed _) => false

/-- The `jti` claim obtained by decoding a token string: known for a
symbolically signed token, unobtainable from an opaque raw string. -/
def TokenStr.jtiOf : TokenStr → Option String
  | .raw _ => none
  | .signed t => some t.jti

/-- Modelled from the spec: the persisted `AccessTokenRecord` of spec §3,
owned by the external TokenStore collaborator (not part of src/).  The
creation-timestamp field is the spec's `issued_on`; it is named `issed_on`
here because rpc.py consistently reads the stored record's attribute under
that name at every return site — one field models both spellings. -/
structure StoredRecord where
  id : String
  user_id : Ident
  name : String
  access_token : TokenStr
  refresh_token : TokenStr
  jti : String
  revoked : Bool
  issed_on : Int
  last_used_on : Option Int
deriving DecidableEq, Repr

/-- The TokenStore's durable state: the collection of non-deleted records. -/
abbrev Store := List StoredRecord

/-- Modelled from the spec: the store-level failure taxonomy relevant to this
core — a uniqueness-conflict error on create (spec §6, §7). -/
inductive StoreError where
  | conflict
deriving DecidableEq, Repr

namespace TokenStore

/-- Modelled from the spec: `TokenStore.create`.  Spec §6 lists the signature
`create(name, user_id, access_token, refresh_token, jti)`, but the service
(rpc.py:84-85) invokes it with only the first four arguments; since spec §3
requires the persisted `jti` to equal the `jti` claim actually encoded into
`access_token`, the store derives it by decoding the token.  Conflict error
when `(user_id, name)` or the `jti` already exists; otherwise a fresh record
with a store-assigned id, `revoked = false`, and the creation timestamp set. -/
def create (st : Store) (name : String) (user_id : Ident)
    (access_token refresh_token : TokenStr) (fresh_id : String) (now : Int) :
    Except StoreError (Store × StoredRecord) :=
  let jti := access_token.jtiOf.getD ""
  if st.any (fun r => decide (r.user_id = user_id ∧ r.name = name)) ||
      st.any (fun r => decide (r.jti = jti)) then
    .error .conflict
  else
    let record : StoredRecord :=
      { id := fresh_id
        user_id := user_id
        name := name
        access_token := access_token
        refresh_token := refresh_token
        jti := jti
        revoked := false
        issed_on := now
        last_used_on := none }
    .ok (record :: st, record)

/-- Modelled from the spec: `TokenStore.get(token_id)` — fetch by primary id,
explicit absence when no record matches. -/
def get (st : Store) (token_id : String) : Option StoredRecord :=
  st.find? (fun r => decide (r.id = token_id))

/-- Modelled from the spec: `TokenStore.get_by_name(user_id, name)` — the
unique record for that user and name, or absent. -/
def get_by_name (st : Store) (user_id : Ident) (name : String) :
    Option StoredRecord :=
  st.find? (fun r => decide (r.user_id = user_id ∧ r.name = name))

/-- Modelled from the spec: `TokenStore.get_by_jti(user_id, jti)` — fetch by
the embedded token identifier, scoped to a user, or absent. -/
def get_by_jti (st : Store) (user_id : Ident) (jti : String) :
    Option StoredRecord :=
  st.find? (fun r => decide (r.user_id = user_id ∧ r.jti = jti))

/-- Modelled from the spec: `TokenStore.get_by_user(user_id)` — all
non-deleted records owned by the user. -/
def get_by_user (st : Store) (user_id : Ident) : List StoredRecord :=
  st.filter (fun r => decide (r.user_id = user_id))

/-- Modelled from the spec: `TokenStore.revoke(user_id, token_id)` — set
`revoked = true` on the record matching both id and owner; idempotent, and a
silent no-op when the record is missing or owned by someone else (spec §4.2,
§7). -/
def revoke (st : Store) (user_id : Ident) (token_id : String) : Store :=
  st.map (fun r =>
    if r.user_id = user_id ∧ r.id = token_id then
      { r with revoked := true }
    else
      r)

/-- Modelled from the spec: `TokenStore.delete(user_id, token_id)` — hard
removal of the record scoped to the user, silent when nothing matches. -/
def delete (st : Store) (user_id : Ident) (token_id : String) : Store :=
  st.filter (fun r => decide (¬ (r.user_id = user_id ∧ r.id = token_id)))

end TokenStore

/-- The gRPC `AccessToken` message returned by the service: the normalized
view of a record, with `id` and `user_id` rendered as strings. -/
structure AccessToken where
  id : String
  user_id : String
  name : String
  access_token : TokenStr
  refresh_token : TokenStr
  revoked : Bool
  issued_on : Int
  last_used_on : Option Int
  jti : String
deriving DecidableEq, Repr

/-- The `AccessToken(...)` message construction inlined at every return site
of rpc.py: `id=str(token.id)`, `user_id=str(token.user_id)` (the stored id is
already its canonical string form, so `str` on it is the identity), and
`issued_on=token.issed_on` — the source reads the stored timestamp attribute
under the name `issed_on`. -/
def toMessage (token : StoredRecord) : AccessToken :=
  { id := token.id
    user_id := token.user_id.pyStr
    name := token.name
    access_token := token.access_token
    refresh_token := token.refresh_token
    revoked := token.revoked
    issued_on := token.issed_on
    last_used_on := token.last_used_on
    jti := token.jti }

/-- Failures a service call can surface: an exception raised by the signing
layer or a conflict raised by the store. -/
inductive RPCError where
  | sign (e : SignError)
  | store (e : StoreError)
deriving DecidableEq, Repr

/-- The `AuthRPC` service of rpc.py: its per-request immutable state is the
JWT manager; the store's state is threaded explicitly. -/
structure AuthRPC where
  jwt : NoAppJWTManager

/-- The two `if not <token>:` statements of rpc.py's `create_access_token`:
keep a truthy caller-supplied token string, otherwise use the freshly signed
one (propagating any signing exception). -/
def signedOr (supplied : Option TokenStr)
    (generated : Except SignError SignedToken) : Except SignError TokenStr :=
  if tokenFalsy supplied then
    generated.map .signed
  else
    .ok (supplied.getD (.raw ""))

/-- rpc.py `AuthRPC.create_access_token(user_id, name, access_token=None,
refresh_token=None)`: falsy token arguments are replaced by freshly signed
tokens for identity `str(user_id)`; the store's `create` is then called with
`(name, user_id, access_token, refresh_token)` and the new record is returned
as a normalized message.  `now`, the signer's fresh `jti_a`/`jti_r`, and the
store's `fresh_id` are the run's nondeterministic inputs. -/
def AuthRPC.create_access_token (svc : AuthRPC) (st : Store)
    (user_id : Ident) (name : String)
    (access_token refresh_token : Option TokenStr)
    (now : Int) (jti_a jti_r fresh_id : String) :
    Except RPCError (Store × AccessToken) :=
  match signedOr access_token
      (svc.jwt.create_access_token user_id.pyStr now jti_a) with
  | .error e => .error (.sign e)
  | .ok atok =>
    match signedOr refresh_token
        (svc.jwt.create_refresh_token user_id.pyStr now jti_r) with
    | .error e => .error (.sign e)
    | .ok rtok =>
      match TokenStore.create st name user_id atok rtok fresh_id now with
      | .error e => .error (.store e)
      | .ok (st2, token) => .ok (st2, toMessage token)

/-- rpc.py `AuthRPC.delete_access_token`: a single delegation to the store. -/
def AuthRPC.delete_access_token (st : Store) (user_id : Ident)
    (token_id : String) : Store :=
  TokenStore.delete st user_id token_id

/-- rpc.py `AuthRPC.revoke_access_token`: a single delegation to the store. -/
def AuthRPC.revoke_access_token (st : Store) (user_id : Ident)
    (token_id : String) : Store :=
  TokenStore.revoke st user_id token_id

/-- rpc.py `AuthRPC.get`: `None` when the store reports absence, otherwise
the normalized message. -/
def AuthRPC.get (st : Store) (token_id : String) : Option AccessToken :=
  match TokenStore.get st token_id with
  | none => none
  | some token => some (toMessage token)

/-- rpc.py `AuthRPC.get_by_name`: `None` when absent, otherwise the
normalized message. -/
def AuthRPC.get_by_name (st : Store) (user_id : Ident) (name : String) :
    Option AccessToken :=
  match TokenStore.get_by_name st user_id name with
  | none => none
  | some token => some (toMessage token)

/-- rpc.py `AuthRPC.get_by_jti`: `None` when absent, otherwise the
normalized message. -/
def AuthRPC.get_by_jti (st : Store) (user_id : Ident) (jti : String) :
    Option AccessToken :=
  match TokenStore.get_by_jti st user_id jti with
  | none => none
  | some token => some (toMessage token)

/-- rpc.py `AuthRPC.get_by_user`: every stored record of the user, each
rendered as a normalized message. -/
def AuthRPC.get_by_user (st : Store) (user_id : Ident) : List AccessToken :=
  (TokenStore.get_by_user st user_id).map toMessage

/-- One positional argument of a store call, as passed from rpc.py. -/
inductive CreateArg where
  | s (v : String)
  | ident (v : Ident)
  | tok (v : TokenStr)
deriving DecidableEq, Repr

/-- The positional argument list rpc.py:84-85 passes to the store's create:
`(name, user_id, access_token, refresh_token)`. -/
def createCallArgs (name : String) (user_id : Ident)
    (access_token refresh_token : TokenStr) : List CreateArg :=
  [.s name, .ident user_id, .tok access_token, .tok refresh_token]

/-- Modelled from the spec: the argument list of the store-create invocation
as spec §4.2/§6 describe it — `(name, user_id, access_token, refresh_token,
jti)` with the `jti` extracted by the service from the signed access token's
claims. -/
def specCreateCallArgs (name : String) (user_id : Ident)
    (access_token refresh_token : TokenStr) : List CreateArg :=
  [.s name, .ident user_id, .tok access_token, .tok refresh_token,
    .s (access_token.jtiOf.getD "")]

/-- A concrete well-formed signing configuration used by the witness
instantiations below. -/
def cfg0 : JWTConfig :=
  { secret_key := "k"
    algorithm := "HS256"
    access_token_expires := 60
    refresh_token_expires := 120
    identity_claim_key := "identity"
    user_claims_key := "user_claims"
    user_claims_in_refresh_token := false
    user_claims_of := fun _ => [] }

/-- A concrete service instance over `cfg0`. -/
def svc0 : AuthRPC := ⟨⟨cfg0⟩⟩

/-- The access token `svc0` signs for identity `"u1"` at time 0 with fresh
jti `"ja"`. -/
def tokA0 : SignedToken :=
  { identity_claim_key := "identity"
    identity := "u1"
    iat := 0
    exp := 60
    jti := "ja"
    token_type := "access"
    user_claims_key := "user_claims"
    user_claims := some []
    secret := "k"
    algorithm := "HS256" }

/-- The refresh token `svc0` signs for identity `"u1"` at time 0 with fresh
jti `"jr"`. -/
def tokR0 : SignedToken :=
  { identity_claim_key := "identity"
    identity := "u1"
    iat := 0
    exp := 120
    jti := "jr"
    token_type := "refresh"
    user_claims_key := "user_claims"
    user_claims := none
    secret := "k"
    algorithm := "HS256" }

/-- A concrete stored record used to instantiate lifecycle theorems. -/
def rec0 : StoredRecord :=
  { id := "t1"
    user_id := .str "u1"
    name := "laptop"
    access_token := .raw "a"
    refresh_token := .raw "r"
    jti := "j"
    revoked := false
    issed_on := 0
    last_used_on := none }

/-- The record `svc0` persists on a fresh create for `"u1"`/`"laptop"` at
time 0 into the empty store. -/
def rec1 : StoredRecord :=
  { id := "id1"
    user_id := .str "u1"
    name := "laptop"
    access_token := .signed tokA0
    refresh_token := .signed tokR0
    jti := "ja"
    revoked := false
    issed_on := 0
    last_used_on := none }

/-- The record `svc0` persists when the caller supplies the non-empty access
token string `"x"` and no refresh token. -/
def rec2 : StoredRecord :=
  { id := "id1"
    user_id := .str "u1"
    name := "laptop"
    access_token := .raw "x"
    refresh_token := .signed tokR0
    jti := ""
    revoked := false
    issed_on := 0
    last_used_on := none }

/-! ### Helper lemmas shared by the claim theorems -/

/-- Success shape of the modelled access-token encoder. -/
lemma create_access_token_ok_shape (m : NoAppJWTManager) (identity : String)
    (now : Int) (jti : String) (t : SignedToken)
    (h : m.create_access_token identity now jti = .ok t) :
    t = { identity_claim_key := m.config.identity_claim_key
          identity := identity
          iat := now
          exp := now + m.config.access_token_expires
          jti := jti
          token_type := "access"
          user_claims_key := m.config.user_claims_key
          user_claims := some (m.config.user_claims_of identity)
          secret := m.config.secret_key
          algorithm := m.config.algorithm } := by
  unfold NoAppJWTManager.create_access_token encode_access_token
    NoAppJWTManager.user_identity_callback NoAppJWTManager.encode_key_callback
    at h
  split at h
  · exact absurd h (by simp)
  · split at h
    · exact absurd h (by simp)
    · simpa using h.symm

/-- Success shape of the modelled refresh-token encoder. -/
lemma create_refresh_token_ok_shape (m : NoAppJWTManager) (identity : String)
    (now : Int) (jti : String) (t : SignedToken)
    (h : m.create_refresh_token identity now jti = .ok t) :
    t = { identity_claim_key := m.config.identity_claim_key
          identity := identity
          iat := now
          exp := now + m.config.refresh_token_expires
          jti := jti
          token_type := "refresh"
          user_claims_key := m.config.user_claims_key
          user_claims :=
            if m.config.user_claims_in_refresh_token then
              some (m.config.user_claims_of identity)
            else
              none
          secret := m.config.secret_key
          algorithm := m.config.algorithm } := by
  unfold NoAppJWTManager.create_refresh_token encode_refresh_token
    NoAppJWTManager.user_identity_callback NoAppJWTManager.encode_key_callback
    at h
  split_ifs at h <;> simp_all

/-- The access-token encoder succeeds exactly on a well-formed configuration
and a non-empty identity. -/
lemma create_access_token_ok_of (m : NoAppJWTManager) (identity : String)
    (now : Int) (jti : String) (hs : m.config.secret_key ≠ "")
    (ha : m.config.algorithm ≠ "") (hi : identity ≠ "") :
    (m.create_access_token identity now jti).isOk = true := by
  unfold NoAppJWTManager.create_access_token encode_access_token
    NoAppJWTManager.user_identity_callback NoAppJWTManager.encode_key_callback
  rw [if_neg (by tauto), if_neg hi]
  rfl

/-- The refresh-token encoder succeeds exactly on a well-formed configuration
and a non-empty identity. -/
lemma create_refresh_token_ok_of (m : NoAppJWTManager) (identity : String)
    (now : Int) (jti : String) (hs : m.config.secret_key ≠ "")
    (ha : m.config.algorithm ≠ "") (hi : identity ≠ "") :
    (m.create_refresh_token identity now jti).isOk = true := by
  unfold NoAppJWTManager.create_refresh_token encode_refresh_token
    NoAppJWTManager.user_identity_callback NoAppJWTManager.encode_key_callback
  rw [if_neg (by tauto), if_neg hi]
  rfl

/-- On a falsy supplied token, `signedOr` returns the generated one. -/
lemma signedOr_falsy (supplied : Option TokenStr)
    (generated : Except SignError SignedToken)
    (h : tokenFalsy supplied = true) :
    signedOr supplied generated = generated.map .signed := by
  unfold signedOr
  rw [if_pos h]

/-- On a truthy supplied token, `signedOr` keeps it. -/
lemma signedOr_truthy (t : TokenStr)
    (generated : Except SignError SignedToken)
    (h : tokenFalsy (some t) = false) :
    signedOr (some t) generated = .ok t := by
  unfold signedOr
  rw [if_neg (by simp [h])]
  rfl

/-- Success shape of the store's create: the fresh record and the new state. -/
lemma store_create_ok_shape (st : Store) (name : String) (user_id : Ident)
    (atok rtok : TokenStr) (fresh_id : String) (now : Int)
    (st2 : Store) (record : StoredRecord)
    (h : TokenStore.create st name user_id atok rtok fresh_id now
        = .ok (st2, record)) :
    record = { id := fresh_id
               user_id := user_id
               name := name
               access_token := atok
               refresh_token := rtok
               jti := atok.jtiOf.getD ""
               revoked := false
               issed_on := now
               last_used_on := none } ∧ st2 = record :: st := by
  unfold TokenStore.create at h
  dsimp only at h
  split at h
  · exact absurd h (by simp)
  · obtain ⟨h1, h2⟩ := Prod.mk.injEq .. ▸ (Except.ok.injEq .. ▸ h)
    subst h2
    exact ⟨rfl, h1.symm⟩

/-- Decomposition of a successful `create_access_token` run into its three
stages: token selection for both kinds, then the store create. -/
lemma create_run_ok_shape (svc : AuthRPC) (st : Store) (u : Ident)
    (name : String) (at? rt? : Option TokenStr) (now : Int)
    (ja jr fid : String) (st2 : Store) (msg : AccessToken)
    (h : svc.create_access_token st u name at? rt? now ja jr fid
        = .ok (st2, msg)) :
    ∃ atok rtok record,
      signedOr at? (svc.jwt.create_access_token u.pyStr now ja) = .ok atok ∧
      signedOr rt? (svc.jwt.create_refresh_token u.pyStr now jr) = .ok rtok ∧
      TokenStore.create st name u atok rtok fid now = .ok (st2, record) ∧
      msg = toMessage record := by
  unfold AuthRPC.create_access_token at h
  split at h
  · exact absurd h (by simp)
  case _ atok hA =>
    split at h
    · exact absurd h (by simp)
    case _ rtok hR =>
      split at h
      · exact absurd h (by simp)
      case _ st2x record hC =>
        obtain ⟨h1, h2⟩ := Prod.mk.injEq .. ▸ (Except.ok.injEq .. ▸ h)
        exact ⟨atok, rtok, record, hA, hR, h1 ▸ hC, h2.symm⟩

/-- A successful `Except.map` comes from a successful computation. -/
lemma except_map_ok {ε α β : Type} (f : α → β) (g : Except ε α) (y : β)
    (h : g.map f = .ok y) : ∃ x, g = .ok x ∧ y = f x := by
  cases g with
  | error e => exact absurd h (by simp [Except.map])
  | ok x => exact ⟨x, rfl, by simpa [Except.map] using h.symm⟩

/-- Whatever token `signedOr` settles on, it is never the empty string: a
kept caller-supplied token was truthy and a generated one is a serialized
signed token. -/
lemma signedOr_ok_nonempty (supplied : Option TokenStr)
    (generated : Except SignError SignedToken) (atok : TokenStr)
    (h : signedOr supplied generated = .ok atok) : atok ≠ .raw "" := by
  unfold signedOr at h
  split at h
  · obtain ⟨t, _, rfl⟩ := except_map_ok _ _ _ h
    simp
  case _ hf =>
    cases supplied with
    | none => exact absurd (by decide) hf
    | some t =>
      obtain rfl : t = atok := by simpa using h
      intro hs
      subst hs
      exact hf (by decide)

/-! ### Claim theorems -/

/-- C3: for every single-record lookup — `get(token_id)`,
`get_by_name(user_id, name)` and `get_by_jti(user_id, jti)` — when the store
reports no matching record, the service returns an explicit `None` result.
It cannot raise: each lookup's embedding is a total function into
`Option AccessToken`, with no error channel. -/
theorem lookups_return_none_when_absent (st : Store) (tid name jti : String)
    (u : Ident) :
    (TokenStore.get st tid = none → AuthRPC.get st tid = none) ∧
    (TokenStore.get_by_name st u name = none →
      AuthRPC.get_by_name st u name = none) ∧
    (TokenStore.get_by_jti st u jti = none →
      AuthRPC.get_by_jti st u jti = none) := by
  refine ⟨fun h => ?_, fun h => ?_, fun h => ?_⟩
  · simp [AuthRPC.get, h]
  · simp [AuthRPC.get_by_name, h]
  · simp [AuthRPC.get_by_jti, h]

/-- Witness for C3: the three lookups on the empty store. -/
theorem lookups_return_none_when_absent_witness :
    AuthRPC.get [] "t" = none ∧
    AuthRPC.get_by_name [] (.str "u") "n" = none ∧
    AuthRPC.get_by_jti [] (.str "u") "j" = none := by
  obtain ⟨h1, h2, h3⟩ :=
    lookups_return_none_when_absent [] "t" "n" "j" (.str "u")
  exact ⟨h1 rfl, h2 rfl, h3 rfl⟩

/-- C4: under a well-formed signing configuration, the signer rejects the
empty identity (for both token kinds) and accepts and signs every non-empty
identity, with no further format validation. -/
theorem signer_validates_identity_nonemptiness_only (m : NoAppJWTManager)
    (identity : String) (now : Int) (jti : String)
    (hs : m.config.secret_key ≠ "") (ha : m.config.algorithm ≠ "") :
    m.create_access_token "" now jti = .error .emptyIdentity ∧
    m.create_refresh_token "" now jti = .error .emptyIdentity ∧
    (identity ≠ "" →
      (m.create_access_token identity now jti).isOk = true ∧
      (m.create_refresh_token identity now jti).isOk = true) := by
  refine ⟨?_, ?_, fun hi =>
    ⟨create_access_token_ok_of m identity now jti hs ha hi,
      create_refresh_token_ok_of m identity now jti hs ha hi⟩⟩
  · unfold NoAppJWTManager.create_access_token encode_access_token
      NoAppJWTManager.user_identity_callback
      NoAppJWTManager.encode_key_callback
    rw [if_neg (by tauto), if_pos rfl]
  · unfold NoAppJWTManager.create_refresh_token encode_refresh_token
      NoAppJWTManager.user_identity_callback
      NoAppJWTManager.encode_key_callback
    rw [if_neg (by tauto), if_pos rfl]

/-- Witness for C4 at the concrete configuration `cfg0` and identity
`"u1"`. -/
theorem signer_validates_identity_nonemptiness_only_witness :
    svc0.jwt.create_access_token "" 0 "j" = .error .emptyIdentity ∧
    (svc0.jwt.create_access_token "u1" 0 "j").isOk = true ∧
    (svc0.jwt.create_refresh_token "u1" 0 "j").isOk = true := by
  obtain ⟨h1, _h2, h3⟩ :=
    signer_validates_identity_nonemptiness_only svc0.jwt "u1" 0 "j"
      (by decide) (by decide)
  obtain ⟨h4, h5⟩ := h3 (by decide)
  exact ⟨h1, h4, h5⟩

/-- C5: a signed access token always embeds the custom claims produced for
the identity under the configured user-claims key, while a signed refresh
token embeds them exactly when `user_claims_in_refresh_token` is set, and
omits the entry otherwise. -/
theorem custom_claims_embedding (m : NoAppJWTManager) (identity : String)
    (nowA nowR : Int) (ja jr : String) (tA tR : SignedToken)
    (hA : m.create_access_token identity nowA ja = .ok tA)
    (hR : m.create_refresh_token identity nowR jr = .ok tR) :
    (tA.user_claims = some (m.config.user_claims_of identity) ∧
      tA.user_claims_key = m.config.user_claims_key) ∧
    (tR.user_claims_key = m.config.user_claims_key ∧
      tR.user_claims =
        (if m.config.user_claims_in_refresh_token then
          some (m.config.user_claims_of identity)
        else
          none)) ∧
    (tR.user_claims ≠ none ↔ m.config.user_claims_in_refresh_token = true) := by
  obtain rfl := create_access_token_ok_shape m identity nowA ja tA hA
  obtain rfl := create_refresh_token_ok_shape m identity nowR jr tR hR
  refine ⟨⟨rfl, rfl⟩, ⟨rfl, rfl⟩, ?_⟩
  by_cases hf : m.config.user_claims_in_refresh_token <;> simp [hf]

/-- Witness for C5 at `cfg0` (whose refresh-claims flag is off): the access
token carries the custom-claims entry, the refresh token omits it. -/
theorem custom_claims_embedding_witness :
    tokA0.user_claims = some [] ∧ tokR0.user_claims = none := by
  obtain ⟨⟨h1, _⟩, ⟨_, h2⟩, _⟩ :=
    custom_claims_embedding svc0.jwt "u1" 0 0 "ja" "jr" tokA0 tokR0 rfl rfl
  exact ⟨by simpa using h1, by simpa using h2⟩

/-- C6: the expiry encoded into a signed token is the signing instant plus
the configured lifetime of the requested kind — `access_token_expires`
seconds for access tokens, `refresh_token_expires` seconds for refresh
tokens, each an integer read from the configuration. -/
theorem token_expiry_is_now_plus_configured_lifetime (m : NoAppJWTManager)
    (identity : String) (nowA nowR : Int) (ja jr : String)
    (tA tR : SignedToken)
    (hA : m.create_access_token identity nowA ja = .ok tA)
    (hR : m.create_refresh_token identity nowR jr = .ok tR) :
    tA.exp = nowA + m.config.access_token_expires ∧
    tR.exp = nowR + m.config.refresh_token_expires := by
  obtain rfl := create_access_token_ok_shape m identity nowA ja tA hA
  obtain rfl := create_refresh_token_ok_shape m identity nowR jr tR hR
  exact ⟨rfl, rfl⟩

/-- Witness for C6 at `cfg0`: lifetimes 60 and 120 from instant 0. -/
theorem token_expiry_is_now_plus_configured_lifetime_witness :
    tokA0.exp = 0 + (60 : Int) ∧ tokR0.exp = 0 + (120 : Int) :=
  token_expiry_is_now_plus_configured_lifetime svc0.jwt "u1" 0 0 "ja" "jr"
    tokA0 tokR0 rfl rfl

/-- C1 counterexample: at a concrete creation (user `"u1"`, name `"laptop"`,
the freshly signed tokens `tokA0`/`tokR0`) the argument list the service
passes to the store's create — `(name, user_id, access_token,
refresh_token)`, rpc.py:84-85 — is not the spec-described list, which ends
with the `jti` extracted from the signed access token's claims. -/
theorem store_create_call_lacks_jti_argument :
    createCallArgs "laptop" (.str "u1") (.signed tokA0) (.signed tokR0) ≠
      specCreateCallArgs "laptop" (.str "u1") (.signed tokA0)
        (.signed tokR0) := by
  decide

/-- C1 (amended): `create_access_token` calls the store's create with only
`(name, user_id, access_token, refresh_token)` and no jti; it is the store
that derives the persisted `jti` from the token, so that on every successful
fresh creation the persisted record still carries exactly the `jti` claim
embedded in its signed access token. -/
theorem fresh_create_persists_jti_of_access_token (svc : AuthRPC)
    (st : Store) (u : Ident) (name : String) (at? rt? : Option TokenStr)
    (now : Int) (ja jr fid : String) (st2 : Store) (msg : AccessToken)
    (hat : tokenFalsy at? = true)
    (h : svc.create_access_token st u name at? rt? now ja jr fid
        = .ok (st2, msg)) :
    ∃ record tA, st2 = record :: st ∧
      record.access_token = .signed tA ∧
      record.jti = tA.jti ∧
      msg.jti = record.jti := by
  obtain ⟨atok, rtok, record, hA, hR, hC, hmsg⟩ :=
    create_run_ok_shape svc st u name at? rt? now ja jr fid st2 msg h
  rw [signedOr_falsy _ _ hat] at hA
  obtain ⟨tA, hgen, rfl⟩ := except_map_ok _ _ _ hA
  obtain ⟨hrec, hst⟩ := store_create_ok_shape _ _ _ _ _ _ _ _ _ hC
  subst hmsg
  refine ⟨record, tA, hst, ?_, ?_, rfl⟩
  · rw [hrec]
  · rw [hrec]
    simp [TokenStr.jtiOf]

/-- Witness for C1 (amended): the fresh creation of `"u1"`/`"laptop"` over
the empty store persists `rec1`, whose `jti` is the one inside `tokA0`. -/
theorem fresh_create_persists_jti_of_access_token_witness :
    ∃ record tA, ([rec1] : Store) = record :: ([] : Store) ∧
      record.access_token = .signed tA ∧
      record.jti = tA.jti ∧
      (toMessage rec1).jti = record.jti :=
  fresh_create_persists_jti_of_access_token svc0 [] (.str "u1") "laptop"
    none none 0 "ja" "jr" "id1" [rec1] (toMessage rec1) rfl rfl

/-- C2: every successful `create_access_token` returns the full normalized
view of the record it persisted — all nine fields, with `user_id` rendered by
`str` and `issued_on` taken from the persisted record — the persisted record
is created unrevoked with non-empty token strings, and on a fresh creation
(falsy token arguments, non-empty random jti) the returned `jti` is
non-empty as well. -/
theorem create_returns_normalized_record (svc : AuthRPC) (st : Store)
    (u : Ident) (name : String) (at? rt? : Option TokenStr) (now : Int)
    (ja jr fid : String) (st2 : Store) (msg : AccessToken)
    (h : svc.create_access_token st u name at? rt? now ja jr fid
        = .ok (st2, msg)) :
    ∃ record, st2 = record :: st ∧ msg = toMessage record ∧
      msg.id = record.id ∧
      msg.user_id = record.user_id.pyStr ∧
      msg.name = record.name ∧
      msg.access_token = record.access_token ∧
      msg.refresh_token = record.refresh_token ∧
      msg.revoked = record.revoked ∧
      msg.issued_on = record.issed_on ∧
      msg.last_used_on = record.last_used_on ∧
      msg.jti = record.jti ∧
      msg.revoked = false ∧
      msg.access_token ≠ .raw "" ∧
      msg.refresh_token ≠ .raw "" ∧
      (tokenFalsy at? = true → ja ≠ "" → msg.jti ≠ "") := by
  obtain ⟨atok, rtok, record, hA, hR, hC, hmsg⟩ :=
    create_run_ok_shape svc st u name at? rt? now ja jr fid st2 msg h
  obtain ⟨hrec, hst⟩ := store_create_ok_shape _ _ _ _ _ _ _ _ _ hC
  subst hmsg
  refine ⟨record, hst, rfl, rfl, rfl, rfl, rfl, rfl, rfl, rfl, rfl, rfl,
    ?_, ?_, ?_, ?_⟩
  · show record.revoked = false
    rw [hrec]
  · show record.access_token ≠ .raw ""
    rw [hrec]
    exact signedOr_ok_nonempty _ _ _ hA
  · show record.refresh_token ≠ .raw ""
    rw [hrec]
    exact signedOr_ok_nonempty _ _ _ hR
  · intro hat hja
    show record.jti ≠ ""
    rw [signedOr_falsy _ _ hat] at hA
    obtain ⟨tA, hgen, rfl⟩ := except_map_ok _ _ _ hA
    obtain rfl := create_access_token_ok_shape _ _ _ _ _ hgen
    rw [hrec]
    simpa [TokenStr.jtiOf] using hja

/-- Witness for C2: the fresh creation of `"u1"`/`"laptop"` yields an
unrevoked message with non-empty token material and jti. -/
theorem create_returns_normalized_record_witness :
    (toMessage rec1).revoked = false ∧
    (toMessage rec1).access_token ≠ .raw "" ∧
    (toMessage rec1).jti ≠ "" := by
  obtain ⟨record, _, _, _, _, _, _, _, _, _, _, _, hrev, hne, _, hjti⟩ :=
    create_returns_normalized_record svc0 [] (.str "u1") "laptop" none none
      0 "ja" "jr" "id1" [rec1] (toMessage rec1) rfl
  exact ⟨hrev, hne, hjti rfl (by decide)⟩

/-- C7: `revoke_access_token` is a pure delegation to the store (the service
adds no ownership check of its own), the store-level revoke is idempotent,
it leaves a store with no matching record untouched, and every record it did
target ends with `revoked = true`; the operation's embedding is a total
function into `Store`, so no error can be produced. -/
theorem revoke_idempotent_silent_delegation (st : Store) (u : Ident)
    (tid : String) :
    AuthRPC.revoke_access_token st u tid = TokenStore.revoke st u tid ∧
    TokenStore.revoke (TokenStore.revoke st u tid) u tid
      = TokenStore.revoke st u tid ∧
    ((∀ r ∈ st, ¬ (r.user_id = u ∧ r.id = tid)) →
      TokenStore.revoke st u tid = st) ∧
    (∀ r ∈ TokenStore.revoke st u tid, r.user_id = u → r.id = tid →
      r.revoked = true) := by
  refine ⟨rfl, ?_, ?_, ?_⟩
  · unfold TokenStore.revoke
    rw [List.map_map]
    apply List.map_congr_left
    intro r _
    by_cases hP : r.user_id = u ∧ r.id = tid
    · simp [Function.comp, hP]
    · simp [Function.comp, hP]
  · intro hnone
    unfold TokenStore.revoke
    have h1 : ∀ r ∈ st,
        (if r.user_id = u ∧ r.id = tid then { r with revoked := true }
          else r) = id r := by
      intro r hr
      simp [hnone r hr]
    rw [List.map_congr_left h1, List.map_id]
  · intro r hr hu hid
    unfold TokenStore.revoke at hr
    obtain ⟨s, hs, hmap⟩ := List.mem_map.mp hr
    by_cases hP : s.user_id = u ∧ s.id = tid
    · rw [if_pos hP] at hmap
      exact hmap ▸ rfl
    · rw [if_neg hP] at hmap
      subst hmap
      exact absurd ⟨hu, hid⟩ hP

/-- Witness for C7: double revoke on a one-record store, and a revoke that
targets a record belonging to nobody in the store. -/
theorem revoke_idempotent_silent_delegation_witness :
    TokenStore.revoke (TokenStore.revoke [rec0] (.str "u1") "t1")
      (.str "u1") "t1" = TokenStore.revoke [rec0] (.str "u1") "t1" ∧
    TokenStore.revoke [rec0] (.str "u2") "t9" = [rec0] := by
  obtain ⟨_, h2, _, _⟩ :=
    revoke_idempotent_silent_delegation [rec0] (.str "u1") "t1"
  obtain ⟨_, _, h3, _⟩ :=
    revoke_idempotent_silent_delegation [rec0] (.str "u2") "t9"
  exact ⟨h2, h3 (by decide)⟩

/-- C8: deletion is final — when every record carrying the deleted id belongs
to the requesting user (in particular when the deleted record was the user's,
ids being unique), a subsequent `get` of that id is absent and the user's
enumeration no longer contains the id. -/
theorem delete_finality (st : Store) (u : Ident) (tid : String)
    (hown : ∀ r ∈ st, r.id = tid → r.user_id = u) :
    AuthRPC.get (AuthRPC.delete_access_token st u tid) tid = none ∧
    ∀ msg ∈ AuthRPC.get_by_user (AuthRPC.delete_access_token st u tid) u,
      msg.id ≠ tid := by
  constructor
  · have hstore : TokenStore.get (TokenStore.delete st u tid) tid = none := by
      unfold TokenStore.get TokenStore.delete
      rw [List.find?_eq_none]
      intro r hr
      obtain ⟨hrs, hkeep⟩ := List.mem_filter.mp hr
      simp only [decide_eq_true_eq] at hkeep ⊢
      intro hid
      exact hkeep ⟨hown r hrs hid, hid⟩
    unfold AuthRPC.get AuthRPC.delete_access_token
    rw [hstore]
  · intro msg hmsg
    unfold AuthRPC.get_by_user AuthRPC.delete_access_token
      TokenStore.get_by_user TokenStore.delete at hmsg
    obtain ⟨r, hr, rfl⟩ := List.mem_map.mp hmsg
    obtain ⟨hr2, huser⟩ := List.mem_filter.mp hr
    obtain ⟨_, hkeep⟩ := List.mem_filter.mp hr2
    simp only [decide_eq_true_eq] at huser hkeep
    intro hid
    exact hkeep ⟨huser, hid⟩

/-- Witness for C8: deleting the only record makes its id unretrievable. -/
theorem delete_finality_witness :
    AuthRPC.get (AuthRPC.delete_access_token [rec0] (.str "u1") "t1") "t1"
      = none :=
  (delete_finality [rec0] (.str "u1") "t1" (by decide)).1

/-- C9: on a fresh creation both signed tokens carry `str(user_id)` — the
canonical string form of the identity, converted at the service boundary —
as their subject. -/
theorem identity_string_normalized_before_signing (svc : AuthRPC)
    (st : Store) (u : Ident) (name : String) (at? rt? : Option TokenStr)
    (now : Int) (ja jr fid : String) (st2 : Store) (msg : AccessToken)
    (hat : tokenFalsy at? = true) (hrt : tokenFalsy rt? = true)
    (h : svc.create_access_token st u name at? rt? now ja jr fid
        = .ok (st2, msg)) :
    ∃ tA tR, msg.access_token = .signed tA ∧ msg.refresh_token = .signed tR ∧
      tA.identity = u.pyStr ∧ tR.identity = u.pyStr := by
  obtain ⟨atok, rtok, record, hA, hR, hC, hmsg⟩ :=
    create_run_ok_shape svc st u name at? rt? now ja jr fid st2 msg h
  rw [signedOr_falsy _ _ hat] at hA
  rw [signedOr_falsy _ _ hrt] at hR
  obtain ⟨tA, hgenA, rfl⟩ := except_map_ok _ _ _ hA
  obtain ⟨tR, hgenR, rfl⟩ := except_map_ok _ _ _ hR
  obtain ⟨hrec, _⟩ := store_create_ok_shape _ _ _ _ _ _ _ _ _ hC
  subst hmsg
  have hA' := create_access_token_ok_shape _ _ _ _ _ hgenA
  have hR' := create_refresh_token_ok_shape _ _ _ _ _ hgenR
  refine ⟨tA, tR, ?_, ?_, ?_, ?_⟩
  · show record.access_token = .signed tA
    rw [hrec]
  · show record.refresh_token = .signed tR
    rw [hrec]
  · rw [hA']
  · rw [hR']

/-- Witness for C9: the fresh creation for the opaque identity `"u1"` signs
both tokens with subject `"u1"`. -/
theorem identity_string_normalized_before_signing_witness :
    ∃ tA tR, (toMessage rec1).access_token = .signed tA ∧
      (toMessage rec1).refresh_token = .signed tR ∧
      tA.identity = (Ident.str "u1").pyStr ∧
      tR.identity = (Ident.str "u1").pyStr :=
  identity_string_normalized_before_signing svc0 [] (.str "u1") "laptop"
    none none 0 "ja" "jr" "id1" [rec1] (toMessage rec1) rfl rfl rfl

/-- C10: an empty-string token argument is discarded exactly like an omitted
one — the run is identical to the run with `None` — and a truthy (non-empty)
caller-supplied token string is persisted as given. -/
theorem falsy_token_args_regenerated (svc : AuthRPC) (st : Store)
    (u : Ident) (name : String) (at? rt? : Option TokenStr) (now : Int)
    (ja jr fid : String) :
    (svc.create_access_token st u name (some (.raw "")) rt? now ja jr fid
      = svc.create_access_token st u name none rt? now ja jr fid) ∧
    (svc.create_access_token st u name at? (some (.raw "")) now ja jr fid
      = svc.create_access_token st u name at? none now ja jr fid) ∧
    (∀ t st2 msg, tokenFalsy (some t) = false →
      svc.create_access_token st u name (some t) rt? now ja jr fid
        = .ok (st2, msg) →
      msg.access_token = t) ∧
    (∀ t st2 msg, tokenFalsy (some t) = false →
      svc.create_access_token st u name at? (some t) now ja jr fid
        = .ok (st2, msg) →
      msg.refresh_token = t) := by
  have he : ∀ g : Except SignError SignedToken,
      signedOr (some (.raw "")) g = signedOr none g := by
    intro g
    simp [signedOr, tokenFalsy]
  refine ⟨?_, ?_, ?_, ?_⟩
  · simp only [AuthRPC.create_access_token, he]
  · simp only [AuthRPC.create_access_token, he]
  · intro t st2 msg hf h
    obtain ⟨atok, rtok, record, hA, hR, hC, hmsg⟩ :=
      create_run_ok_shape svc st u name (some t) rt? now ja jr fid st2 msg h
    rw [signedOr_truthy _ _ hf] at hA
    obtain rfl : t = atok := Except.ok.inj hA
    obtain ⟨hrec, _⟩ := store_create_ok_shape _ _ _ _ _ _ _ _ _ hC
    subst hmsg
    simp [toMessage, hrec]
  · intro t st2 msg hf h
    obtain ⟨atok, rtok, record, hA, hR, hC, hmsg⟩ :=
      create_run_ok_shape svc st u name at? (some t) now ja jr fid st2 msg h
    rw [signedOr_truthy _ _ hf] at hR
    obtain rfl : t = rtok := Except.ok.inj hR
    obtain ⟨hrec, _⟩ := store_create_ok_shape _ _ _ _ _ _ _ _ _ hC
    subst hmsg
    simp [toMessage, hrec]

/-- Witness for C10: supplying `""` runs exactly like supplying nothing, and
the truthy supplied string `"x"` is persisted as given. -/
theorem falsy_token_args_regenerated_witness :
    (svc0.create_access_token [] (.str "u1") "laptop" (some (.raw "")) none
        0 "ja" "jr" "id1"
      = svc0.create_access_token [] (.str "u1") "laptop" none none
        0 "ja" "jr" "id1") ∧
    (toMessage rec2).access_token = .raw "x" := by
  obtain ⟨h1, _h2, h3, _h4⟩ :=
    falsy_token_args_regenerated svc0 [] (.str "u1") "laptop" none none
      0 "ja" "jr" "id1"
  exact ⟨h1, h3 (.raw "x") [rec2] (toMessage rec2) (by decide) rfl⟩

end ChaosAuth

